import Mathlib

/-!
Shallow embedding of `src/wormhole/_dilation/subchannel.py`: the subchannel
state machine (`SubChannel`, an automat `MethodicalMachine`), the address
value types, and the three endpoint classes (`ControlEndpoint`,
`SubchannelConnectorEndpoint`, `SubchannelListenerEndpoint`).

Modelling conventions:
* Python byte strings become `List Nat` (one entry per byte).
* The external `IDilationManager` collaborator is represented by the ordered
  trace of calls the code makes into it (`ManagerCall`); the `_manager`
  attribute itself carries no state that the core reads.
* The bound application protocol (`self._protocol`) is represented by the
  ordered list of events delivered to it (`ProtoEvent`); `_protocol = None`
  becomes `Option.none`.
* Python exceptions become explicit error values (`SubError`); an automat
  transition whose output raises still performs its `enter=` state change
  first, which for the `closing` error transitions is the identity.
* `@inlineCallbacks` coroutines run synchronously up to their single
  `yield self._wait_for_main_channel.when_fired()`; we model the readiness
  observer (`OneShotObserver`) as a three-valued `Readiness` and give each
  endpoint call its outcome as a function of that value: `suspended` for a
  still-pending observer (the code has executed everything before the
  `yield`, and nothing after it).
* `_host_addr` / `_peer_addr` are inert address values only returned by
  `getHost`/`getPeer`; they are not carried on the Lean `SubChannel`.
-/

/-- Bytes of a Python `bytes` value, one `Nat` per byte. -/
abbrev Bytes := List Nat

/-- `MAX_FRAME_LENGTH = 2**32 - 1 - 9 - 16` from subchannel.py line 22. -/
def MAX_FRAME_LENGTH : Nat := 2 ^ 32 - 1 - 9 - 16

/-- The three automat states of `SubChannel`: `open` (initial), `closing`,
`closed`.  (`open` is a Lean keyword, hence `opened`.) -/
inductive State where
  | opened
  | closing
  | closed
deriving DecidableEq, Repr

/-- The close reason: the code only ever passes `ConnectionDone()`. -/
inductive Reason where
  | connectionDone
deriving DecidableEq, Repr

/-- An event delivered to the bound application protocol. -/
inductive ProtoEvent where
  /-- `p.makeConnection(transport)` — invokes `p.connectionMade()`. -/
  | connectionMade
  /-- `p.dataReceived(data)`. -/
  | dataReceived (data : Bytes)
  /-- `p.connectionLost(what)`; through `signal_connectionLost` the argument
  is `ConnectionDone()`, through `_set_protocol` it is whatever was stored in
  `_pending_connectionLost` (possibly `None`). -/
  | connectionLost (what : Option Reason)
deriving DecidableEq, Repr

/-- A call made into the `IDilationManager` collaborator. -/
inductive ManagerCall where
  | send_data (scid : Int) (data : Bytes)
  | send_close (scid : Int)
  | send_open (scid : Int)
  | subchannel_closed (scid : Int)
  | allocate_subchannel_id
  | subchannel_local_open (scid : Int)
deriving DecidableEq, Repr

/-- Exceptions raised by the embedded code. -/
inductive SubError where
  /-- `AlreadyClosedError(msg)`. -/
  | alreadyClosedError (msg : String)
  /-- a failed `assert` statement. -/
  | assertionError
  /-- automat raises when a state has no transition for an input. -/
  | noTransition
deriving DecidableEq, Repr

/-- The four `@m.input()` methods of `SubChannel`. -/
inductive Input where
  | remote_data (data : Bytes)
  | remote_close
  | local_data (data : Bytes)
  | local_close
deriving DecidableEq, Repr

/-- The mutable state of one `SubChannel` object.  `_manager`, `_host_addr`
and `_peer_addr` are externalized per the conventions above. -/
structure SubChannel where
  scid : Int
  state : State
  /-- `self._protocol`: `none` when unbound, otherwise the event log of the
  bound protocol. -/
  protocol : Option (List ProtoEvent)
  /-- `self._pending_dataReceived`. -/
  pending_dataReceived : List Bytes
  /-- `self._pending_connectionLost`, a `(bool, reason)` pair. -/
  pending_connectionLost : Bool × Option Reason
deriving DecidableEq, Repr

/-- `SubChannel(scid, manager, host_addr, peer_addr)` followed by
`__attrs_post_init__`: initial automat state `open`, no protocol, empty
pending buffers. -/
def SubChannel.new (scid : Int) : SubChannel :=
  { scid := scid
    state := State.opened
    protocol := none
    pending_dataReceived := []
    pending_connectionLost := (false, none) }

/-- Result of driving one input into the machine: the subchannel afterwards,
the manager calls emitted (in order), and the exception raised, if any. -/
structure StepResult where
  sub : SubChannel
  calls : List ManagerCall
  err : Option SubError
deriving DecidableEq, Repr

/-- `@m.output() signal_dataReceived`: deliver to the bound protocol, or
append to `_pending_dataReceived` when none is bound. -/
def SubChannel.signal_dataReceived (sc : SubChannel) (data : Bytes) :
    SubChannel × List ManagerCall :=
  match sc.protocol with
  | some evs => ({ sc with protocol := some (evs ++ [ProtoEvent.dataReceived data]) }, [])
  | none => ({ sc with pending_dataReceived := sc.pending_dataReceived ++ [data] }, [])

/-- `@m.output() signal_connectionLost`: deliver `connectionLost(ConnectionDone())`
to the bound protocol, or record `(True, ConnectionDone())` when none is
bound; then call `manager.subchannel_closed(scid, self)`. -/
def SubChannel.signal_connectionLost (sc : SubChannel) :
    SubChannel × List ManagerCall :=
  let sc1 :=
    match sc.protocol with
    | some evs =>
        { sc with protocol := some (evs ++ [ProtoEvent.connectionLost (some Reason.connectionDone)]) }
    | none => { sc with pending_connectionLost := (true, some Reason.connectionDone) }
  (sc1, [ManagerCall.subchannel_closed sc.scid])

/-- The transition table of the `MethodicalMachine` (subchannel.py lines
154-166): state change first (`enter=`), then the listed outputs in order. -/
def SubChannel.step (sc : SubChannel) (i : Input) : StepResult :=
  match sc.state, i with
  | State.opened, Input.remote_data d =>
      let (sc1, cs) := sc.signal_dataReceived d
      ⟨sc1, cs, none⟩
  | State.opened, Input.local_data d =>
      ⟨sc, [ManagerCall.send_data sc.scid d], none⟩
  | State.opened, Input.remote_close =>
      let sc0 := { sc with state := State.closed }
      let (sc1, cs) := sc0.signal_connectionLost
      ⟨sc1, ManagerCall.send_close sc.scid :: cs, none⟩
  | State.opened, Input.local_close =>
      ⟨{ sc with state := State.closing }, [ManagerCall.send_close sc.scid], none⟩
  | State.closing, Input.remote_data d =>
      let (sc1, cs) := sc.signal_dataReceived d
      ⟨sc1, cs, none⟩
  | State.closing, Input.remote_close =>
      let sc0 := { sc with state := State.closed }
      let (sc1, cs) := sc0.signal_connectionLost
      ⟨sc1, cs, none⟩
  | State.closing, Input.local_data _ =>
      ⟨sc, [], some (SubError.alreadyClosedError "write not allowed on closed subchannel")⟩
  | State.closing, Input.local_close =>
      ⟨sc, [], some (SubError.alreadyClosedError "loseConnection not allowed on closed subchannel")⟩
  | State.closed, _ =>
      ⟨sc, [], some SubError.noTransition⟩

/-- `SubChannel._set_protocol(protocol)`: asserts no protocol is bound yet,
binds it, replays `_pending_dataReceived` in order and clears it, then
delivers a pending `connectionLost` if one was recorded. -/
def SubChannel.set_protocol (sc : SubChannel) : Except SubError SubChannel :=
  match sc.protocol with
  | some _ => Except.error SubError.assertionError
  | none =>
      let evs := sc.pending_dataReceived.map ProtoEvent.dataReceived
      let evs :=
        match sc.pending_connectionLost with
        | (true, what) => evs ++ [ProtoEvent.connectionLost what]
        | (false, _) => evs
      Except.ok { sc with protocol := some evs, pending_dataReceived := [] }

/-- `p.makeConnection(sc)`: sets `p.transport` and invokes
`p.connectionMade()` on the bound protocol. -/
def SubChannel.makeConnection (sc : SubChannel) : SubChannel :=
  match sc.protocol with
  | some evs => { sc with protocol := some (evs ++ [ProtoEvent.connectionMade]) }
  | none => sc

/-- `SubChannel.write(data)`: asserts `len(data) <= MAX_FRAME_LENGTH` before
feeding `local_data` to the machine (the `isinstance(data, bytes)` assert is
vacuous under the `Bytes` embedding). -/
def SubChannel.write (sc : SubChannel) (data : Bytes) : StepResult :=
  if data.length ≤ MAX_FRAME_LENGTH then
    sc.step (Input.local_data data)
  else
    ⟨sc, [], some SubError.assertionError⟩

/-- `SubChannel.writeSequence(iovec) = self.write(b"".join(iovec))`. -/
def SubChannel.writeSequence (sc : SubChannel) (iovec : List Bytes) : StepResult :=
  sc.write iovec.flatten

/-- `SubChannel.loseConnection()`: feeds `local_close` to the machine. -/
def SubChannel.loseConnection (sc : SubChannel) : StepResult :=
  sc.step Input.local_close

/-- A Python value handed to the `_SubchannelAddress` constructor; Python is
dynamically typed, so the constructor can receive any value. -/
inductive PyValue where
  | int (i : Int)
  | str (s : String)
  | bytes (b : Bytes)
  | pyNone
deriving DecidableEq, Repr

/-- The address value: `_SubchannelAddress` with its validated `_scid`. -/
structure _SubchannelAddress where
  scid : Int
deriving DecidableEq, Repr

/-- `_SubchannelAddress(v)`: attrs runs `instance_of(six.integer_types)` on
the argument — construction succeeds exactly when the value is an integer
(raising `TypeError`, modelled as `Except.error`, otherwise). -/
def mk_SubchannelAddress (v : PyValue) : Except Unit _SubchannelAddress :=
  match v with
  | PyValue.int i => Except.ok ⟨i⟩
  | _ => Except.error ()

/-- Errors raised by the endpoint layer. -/
inductive EndpointError where
  | singleUseEndpointError
deriving DecidableEq, Repr

/-- The `Once` guard: `_called` flag, raising its error type on reuse. -/
structure Once where
  called : Bool
deriving DecidableEq, Repr

/-- `Once.__call__`: raise if `_called` is already set (before mutating
anything), else set it. -/
def Once.call (o : Once) : Except EndpointError Once :=
  if o.called then Except.error EndpointError.singleUseEndpointError
  else Except.ok { called := true }

/-- The `OneShotObserver` for the main channel, as seen by a waiter:
still pending, fired (`_main_channel_ready`), or errored
(`_main_channel_failed`). -/
inductive Readiness where
  | pending
  | fired
  | failed
deriving DecidableEq, Repr

/-- `ControlEndpoint`: single-use guard, the pre-built subchannel zero, and
the readiness observer (`_peer_addr` is inert, `_eventual_queue` is event
-loop plumbing). -/
structure ControlEndpoint where
  once : Once
  subchannel_zero : SubChannel
  readiness : Readiness
deriving DecidableEq, Repr

/-- Outcome of one `ControlEndpoint.connect(factory)` invocation. -/
inductive ControlConnectOutcome where
  /-- the `self._once()` guard raised `SingleUseEndpointError`; nothing else
  ran, the endpoint is unchanged. -/
  | failed (e : EndpointError)
  /-- the coroutine is parked at `yield when_fired()`; the guard has already
  been consumed. -/
  | suspended (ep : ControlEndpoint)
  /-- the readiness observer errored: the failure propagates to the caller. -/
  | readinessFailed (ep : ControlEndpoint)
  /-- the body completed; the result of `_set_protocol` + `makeConnection`
  on subchannel zero is returned (`Except.error` if the assert fired). -/
  | connected (ep : ControlEndpoint) (r : Except SubError SubChannel)
deriving Repr

/-- `ControlEndpoint.connect(protocolFactory)`: `self._once()` first, then
await readiness, then `buildProtocol`, `_set_protocol`, `makeConnection`. -/
def ControlEndpoint.connect (ep : ControlEndpoint) : ControlConnectOutcome :=
  match ep.once.call with
  | Except.error e => ControlConnectOutcome.failed e
  | Except.ok o =>
      let ep1 := { ep with once := o }
      match ep1.readiness with
      | Readiness.pending => ControlConnectOutcome.suspended ep1
      | Readiness.failed => ControlConnectOutcome.readinessFailed ep1
      | Readiness.fired =>
          match ep1.subchannel_zero.set_protocol with
          | Except.error e => ControlConnectOutcome.connected ep1 (Except.error e)
          | Except.ok sc =>
              let sc1 := sc.makeConnection
              ControlConnectOutcome.connected { ep1 with subchannel_zero := sc1 }
                (Except.ok sc1)

/-- `SubchannelConnectorEndpoint`: no single-use guard; only the readiness
observer matters to the embedded behaviour (`_manager` is the call trace,
`_host_addr` inert). -/
structure SubchannelConnectorEndpoint where
  readiness : Readiness
deriving DecidableEq, Repr

/-- Outcome of one `SubchannelConnectorEndpoint.connect(factory)`
invocation (paired with the manager calls it made). -/
inductive ConnectorOutcome where
  | suspended
  | readinessFailed
  | connected (r : Except SubError SubChannel)
deriving Repr

/-- `SubchannelConnectorEndpoint.connect(protocolFactory)`: await readiness;
then `scid = manager.allocate_subchannel_id()`, `manager.send_open(scid)`,
`peer_addr = _SubchannelAddress(scid)`, `sc = SubChannel(...)`,
`manager.subchannel_local_open(scid, sc)`, `buildProtocol`, `_set_protocol`,
`makeConnection`.  `scid` is the id returned by the allocator of the manager. -/
def SubchannelConnectorEndpoint.connect (ep : SubchannelConnectorEndpoint)
    (scid : Int) : List ManagerCall × ConnectorOutcome :=
  match ep.readiness with
  | Readiness.pending => ([], ConnectorOutcome.suspended)
  | Readiness.failed => ([], ConnectorOutcome.readinessFailed)
  | Readiness.fired =>
      let calls := [ManagerCall.allocate_subchannel_id,
                    ManagerCall.send_open scid,
                    ManagerCall.subchannel_local_open scid]
      let sc := SubChannel.new scid
      match sc.set_protocol with
      | Except.error e => (calls, ConnectorOutcome.connected (Except.error e))
      | Except.ok sc1 =>
          (calls, ConnectorOutcome.connected (Except.ok sc1.makeConnection))

/-- `SubchannelListenerEndpoint`: single-use guard, optional factory,
FIFO `_pending_opens` of `(t, peer_addr)` pairs, readiness observer. -/
structure SubchannelListenerEndpoint where
  once : Once
  /-- `self._factory`: `false` models `None`; the factory object itself has
  no state the core reads, `buildProtocol` yields a fresh protocol. -/
  factory : Bool
  pending_opens : List (SubChannel × _SubchannelAddress)
  readiness : Readiness
deriving DecidableEq, Repr

/-- `SubchannelListenerEndpoint._connect(t, peer_addr)`:
`p = factory.buildProtocol(peer_addr)`, `t._set_protocol(p)`,
`p.makeConnection(t)`. -/
def listener_connect (t : SubChannel) : Except SubError SubChannel :=
  match t.set_protocol with
  | Except.error e => Except.error e
  | Except.ok sc => Except.ok sc.makeConnection

/-- `SubchannelListenerEndpoint._got_open(t, peer_addr)`: connect
immediately when a factory is registered, else append to
`_pending_opens`.  Returns the endpoint afterwards and the connections
performed (in order). -/
def SubchannelListenerEndpoint.got_open (ep : SubchannelListenerEndpoint)
    (t : SubChannel) (peer_addr : _SubchannelAddress) :
    SubchannelListenerEndpoint × List (Except SubError SubChannel) :=
  if ep.factory then
    (ep, [listener_connect t])
  else
    ({ ep with pending_opens := ep.pending_opens ++ [(t, peer_addr)] }, [])

/-- Outcome of one `SubchannelListenerEndpoint.listen(factory)` invocation,
with the connections it performed (in order). -/
inductive ListenOutcome where
  | failed (e : EndpointError)
  | suspended (ep : SubchannelListenerEndpoint)
  | readinessFailed (ep : SubchannelListenerEndpoint)
  /-- `self._factory = protocolFactory`; the `while self._pending_opens`
  loop poplefts and `_connect`s each queued pair; a
  `SubchannelListeningPort` is returned. -/
  | listening (ep : SubchannelListenerEndpoint)
      (conns : List (Except SubError SubChannel))
deriving Repr

/-- `SubchannelListenerEndpoint.listen(protocolFactory)`: `self._once()`
first, then await readiness, then record the factory and drain the queue in
FIFO order. -/
def SubchannelListenerEndpoint.listen (ep : SubchannelListenerEndpoint) :
    ListenOutcome :=
  match ep.once.call with
  | Except.error e => ListenOutcome.failed e
  | Except.ok o =>
      let ep1 := { ep with once := o }
      match ep1.readiness with
      | Readiness.pending => ListenOutcome.suspended ep1
      | Readiness.failed => ListenOutcome.readinessFailed ep1
      | Readiness.fired =>
          let conns := ep1.pending_opens.map (fun tp => listener_connect tp.1)
          ListenOutcome.listening
            { ep1 with factory := true, pending_opens := [] } conns

/-- End-to-end scenario 1: subchannel id 5 in OPEN state, no bound consumer;
feed `remote_data b"AB"`, `remote_data b"CD"`, `remote_close`. -/
def scenario1_final : SubChannel :=
  ((((SubChannel.new 5).step (Input.remote_data [65, 66])).sub.step
      (Input.remote_data [67, 68])).sub.step Input.remote_close).sub

/-- C1: after remote-data `b"AB"`, remote-data `b"CD"`, remote-close on an
OPEN subchannel with no consumer, attaching a consumer delivers exactly
`dataReceived(b"AB")`, `dataReceived(b"CD")`, `connectionLost()` in that
order, with the subchannel CLOSED; in general, attaching to an unbound
subchannel delivers the buffered data in original order, clears the buffer,
and delivers a pending close strictly after all buffered data. -/
theorem C1_buffered_delivery_on_attach :
    (scenario1_final.state = State.closed ∧
      scenario1_final.set_protocol =
        Except.ok { scenario1_final with
          protocol := some [ProtoEvent.dataReceived [65, 66],
                            ProtoEvent.dataReceived [67, 68],
                            ProtoEvent.connectionLost (some Reason.connectionDone)],
          pending_dataReceived := [] }) ∧
    ∀ sc : SubChannel, sc.protocol = none →
      sc.set_protocol = Except.ok { sc with
        protocol := some (sc.pending_dataReceived.map ProtoEvent.dataReceived ++
          (if sc.pending_connectionLost.1 then
              [ProtoEvent.connectionLost sc.pending_connectionLost.2] else [])),
        pending_dataReceived := [] } := by
  refine ⟨⟨rfl, rfl⟩, ?_⟩
  intro sc hp
  obtain ⟨scid, st, pr, pd, pc⟩ := sc
  change pr = none at hp
  subst hp
  obtain ⟨b, w⟩ := pc
  cases b <;> simp [SubChannel.set_protocol]

/-- Witness for C1: the general attach clause applied to the concrete
buffered subchannel reached in scenario 1 after the two data events. -/
theorem C1_buffered_delivery_on_attach_witness :
    ({ scid := 5
       state := State.opened
       protocol := none
       pending_dataReceived := [[65, 66], [67, 68]]
       pending_connectionLost := (false, none) } : SubChannel).set_protocol =
      Except.ok
        { scid := 5
          state := State.opened
          protocol := some ((([[65, 66], [67, 68]] : List Bytes).map
              ProtoEvent.dataReceived) ++
            (if false then [ProtoEvent.connectionLost none] else []))
          pending_dataReceived := []
          pending_connectionLost := (false, none) } :=
  C1_buffered_delivery_on_attach.2 _ rfl

/-- C2: on an OPEN subchannel, a write of exactly `MAX_FRAME_LENGTH` bytes
reaches the state machine and is forwarded via `send_data` on the manager,
while a write one byte longer fails the assertion before the state machine
sees any input, so no manager call is made. -/
theorem C2_max_frame_length_write (sc : SubChannel) (d1 d2 : Bytes)
    (hs : sc.state = State.opened)
    (h1 : d1.length = MAX_FRAME_LENGTH)
    (h2 : d2.length = MAX_FRAME_LENGTH + 1) :
    sc.write d1 = ⟨sc, [ManagerCall.send_data sc.scid d1], none⟩ ∧
    sc.write d2 = ⟨sc, [], some SubError.assertionError⟩ := by
  obtain ⟨scid, st, pr, pd, pc⟩ := sc
  change st = State.opened at hs
  subst hs
  constructor
  · unfold SubChannel.write
    rw [h1, if_pos (le_refl _)]
    rfl
  · unfold SubChannel.write
    rw [h2, if_neg (by omega)]

/-- Witness for C2 at subchannel id 5 with the two boundary payloads. -/
theorem C2_max_frame_length_write_witness :
    (SubChannel.new 5).write (List.replicate MAX_FRAME_LENGTH 0) =
      ⟨SubChannel.new 5,
        [ManagerCall.send_data 5 (List.replicate MAX_FRAME_LENGTH 0)], none⟩ ∧
    (SubChannel.new 5).write (List.replicate (MAX_FRAME_LENGTH + 1) 0) =
      ⟨SubChannel.new 5, [], some SubError.assertionError⟩ :=
  C2_max_frame_length_write (SubChannel.new 5) _ _ rfl (by simp) (by simp)

/-- C3: on a CLOSING subchannel, a local write and a local close both raise
`AlreadyClosedError`, emit no manager call, and leave the subchannel (in
particular its state, still CLOSING) unchanged. -/
theorem C3_closing_write_close_fail (sc : SubChannel) (d : Bytes)
    (hs : sc.state = State.closing)
    (hd : d.length ≤ MAX_FRAME_LENGTH) :
    sc.write d =
      ⟨sc, [], some (SubError.alreadyClosedError
        "write not allowed on closed subchannel")⟩ ∧
    sc.loseConnection =
      ⟨sc, [], some (SubError.alreadyClosedError
        "loseConnection not allowed on closed subchannel")⟩ := by
  obtain ⟨scid, st, pr, pd, pc⟩ := sc
  change st = State.closing at hs
  subst hs
  constructor
  · unfold SubChannel.write
    rw [if_pos hd]
    rfl
  · rfl

/-- Witness for C3: the subchannel reached by a local close from OPEN. -/
theorem C3_closing_write_close_fail_witness :
    (((SubChannel.new 5).step Input.local_close).sub.write [0] =
      ⟨((SubChannel.new 5).step Input.local_close).sub, [],
        some (SubError.alreadyClosedError
          "write not allowed on closed subchannel")⟩) ∧
    (((SubChannel.new 5).step Input.local_close).sub.loseConnection =
      ⟨((SubChannel.new 5).step Input.local_close).sub, [],
        some (SubError.alreadyClosedError
          "loseConnection not allowed on closed subchannel")⟩) :=
  C3_closing_write_close_fail _ [0] rfl (by decide)

/-- C4: `remote_close` in OPEN emits `send_close` then (after delivering the
close to the bound consumer, or recording it as pending) `subchannel_closed`,
ending CLOSED; `remote_close` in CLOSING performs only the deliver-or-record
step and `subchannel_closed` — no outbound close frame — also ending
CLOSED. -/
theorem C4_remote_close (sc : SubChannel) :
    (sc.state = State.opened → sc.protocol = none →
      sc.step Input.remote_close =
        ⟨{ sc with
            state := State.closed
            pending_connectionLost := (true, some Reason.connectionDone) },
          [ManagerCall.send_close sc.scid, ManagerCall.subchannel_closed sc.scid],
          none⟩) ∧
    (∀ evs, sc.state = State.opened → sc.protocol = some evs →
      sc.step Input.remote_close =
        ⟨{ sc with
            state := State.closed
            protocol := some (evs ++
              [ProtoEvent.connectionLost (some Reason.connectionDone)]) },
          [ManagerCall.send_close sc.scid, ManagerCall.subchannel_closed sc.scid],
          none⟩) ∧
    (sc.state = State.closing → sc.protocol = none →
      sc.step Input.remote_close =
        ⟨{ sc with
            state := State.closed
            pending_connectionLost := (true, some Reason.connectionDone) },
          [ManagerCall.subchannel_closed sc.scid], none⟩) ∧
    (∀ evs, sc.state = State.closing → sc.protocol = some evs →
      sc.step Input.remote_close =
        ⟨{ sc with
            state := State.closed
            protocol := some (evs ++
              [ProtoEvent.connectionLost (some Reason.connectionDone)]) },
          [ManagerCall.subchannel_closed sc.scid], none⟩) := by
  obtain ⟨scid, st, pr, pd, pc⟩ := sc
  refine ⟨?_, ?_, ?_, ?_⟩
  · intro hs hp
    change st = State.opened at hs
    change pr = none at hp
    subst hs; subst hp
    rfl
  · intro evs hs hp
    change st = State.opened at hs
    change pr = some evs at hp
    subst hs; subst hp
    rfl
  · intro hs hp
    change st = State.closing at hs
    change pr = none at hp
    subst hs; subst hp
    rfl
  · intro evs hs hp
    change st = State.closing at hs
    change pr = some evs at hp
    subst hs; subst hp
    rfl

/-- Witness for C4: a fresh OPEN subchannel id 5 with no consumer, and the
CLOSING subchannel obtained from it by a local close. -/
theorem C4_remote_close_witness :
    ((SubChannel.new 5).step Input.remote_close =
      ⟨{ SubChannel.new 5 with
          state := State.closed
          pending_connectionLost := (true, some Reason.connectionDone) },
        [ManagerCall.send_close 5, ManagerCall.subchannel_closed 5], none⟩) ∧
    (((SubChannel.new 5).step Input.local_close).sub.step Input.remote_close =
      ⟨{ ((SubChannel.new 5).step Input.local_close).sub with
          state := State.closed
          pending_connectionLost := (true, some Reason.connectionDone) },
        [ManagerCall.subchannel_closed 5], none⟩) :=
  ⟨(C4_remote_close (SubChannel.new 5)).1 rfl rfl,
   (C4_remote_close ((SubChannel.new 5).step Input.local_close).sub).2.2.1 rfl rfl⟩

/-- C5: `ControlEndpoint.connect` and `SubchannelListenerEndpoint.listen`
run the single-use guard before awaiting readiness: on an endpoint whose
guard was already consumed the call fails with `SingleUseEndpointError`
whatever the state of the readiness observer — even while a first call
is still suspended on it — and the failure mutates nothing, so the first
outcome of that call is unaffected; a first call made while readiness is pending
consumes the guard and suspends, touching nothing else. -/
theorem C5_single_use_endpoints (ce : ControlEndpoint)
    (le : SubchannelListenerEndpoint) :
    (ce.once.called = true →
      ce.connect = ControlConnectOutcome.failed
        EndpointError.singleUseEndpointError) ∧
    (le.once.called = true →
      le.listen = ListenOutcome.failed EndpointError.singleUseEndpointError) ∧
    (ce.once.called = false → ce.readiness = Readiness.pending →
      ce.connect = ControlConnectOutcome.suspended
        { ce with once := { called := true } }) ∧
    (le.once.called = false → le.readiness = Readiness.pending →
      le.listen = ListenOutcome.suspended
        { le with once := { called := true } }) := by
  obtain ⟨⟨cb⟩, cz, cr⟩ := ce
  obtain ⟨⟨lb⟩, lf, lp, lr⟩ := le
  refine ⟨?_, ?_, ?_, ?_⟩
  · intro h
    change cb = true at h
    subst h
    rfl
  · intro h
    change lb = true at h
    subst h
    rfl
  · intro h hr
    change cb = false at h
    change cr = Readiness.pending at hr
    subst h; subst hr
    rfl
  · intro h hr
    change lb = false at h
    change lr = Readiness.pending at hr
    subst h; subst hr
    rfl

/-- Witness for C5: concrete endpoints, fresh and already-used, with a
still-pending readiness observer. -/
theorem C5_single_use_endpoints_witness :
    (({ once := { called := true }
        subchannel_zero := SubChannel.new 0
        readiness := Readiness.pending } : ControlEndpoint).connect =
      ControlConnectOutcome.failed EndpointError.singleUseEndpointError) ∧
    (({ once := { called := true }
        factory := false
        pending_opens := []
        readiness := Readiness.pending } : SubchannelListenerEndpoint).listen =
      ListenOutcome.failed EndpointError.singleUseEndpointError) ∧
    (({ once := { called := false }
        subchannel_zero := SubChannel.new 0
        readiness := Readiness.pending } : ControlEndpoint).connect =
      ControlConnectOutcome.suspended
        { once := { called := true }
          subchannel_zero := SubChannel.new 0
          readiness := Readiness.pending }) :=
  ⟨(C5_single_use_endpoints _ ⟨⟨true⟩, false, [], Readiness.pending⟩).1 rfl,
   (C5_single_use_endpoints ⟨⟨true⟩, SubChannel.new 0, Readiness.pending⟩
      ⟨⟨true⟩, false, [], Readiness.pending⟩).2.1 rfl,
   (C5_single_use_endpoints ⟨⟨false⟩, SubChannel.new 0, Readiness.pending⟩
      ⟨⟨true⟩, false, [], Readiness.pending⟩).2.2.1 rfl rfl⟩

/-- C6: the connector endpoint makes no manager call (in particular no
`allocate_subchannel_id`) while the readiness observer is pending; once it
has fired, an invocation performs exactly one `allocate_subchannel_id` and
one `send_open`, in the order allocate, send_open, register via
`subchannel_local_open`, and the returned protocol is bound to the new
subchannel carrying the allocated id and has already observed its
`connectionMade` callback. -/
theorem C6_connector_endpoint (ep : SubchannelConnectorEndpoint) (scid : Int) :
    (ep.readiness = Readiness.pending →
      ep.connect scid = ([], ConnectorOutcome.suspended)) ∧
    (ep.readiness = Readiness.fired →
      ep.connect scid =
        ([ManagerCall.allocate_subchannel_id, ManagerCall.send_open scid,
          ManagerCall.subchannel_local_open scid],
         ConnectorOutcome.connected (Except.ok
           { SubChannel.new scid with
              protocol := some [ProtoEvent.connectionMade] }))) := by
  obtain ⟨r⟩ := ep
  constructor
  · intro h
    change r = Readiness.pending at h
    subst h
    rfl
  · intro h
    change r = Readiness.fired at h
    subst h
    rfl

/-- Witness for C6: a pending and a fired connector endpoint, id 4. -/
theorem C6_connector_endpoint_witness :
    (({ readiness := Readiness.pending } : SubchannelConnectorEndpoint).connect 4 =
      ([], ConnectorOutcome.suspended)) ∧
    (({ readiness := Readiness.fired } : SubchannelConnectorEndpoint).connect 4 =
      ([ManagerCall.allocate_subchannel_id, ManagerCall.send_open 4,
        ManagerCall.subchannel_local_open 4],
       ConnectorOutcome.connected (Except.ok
         { SubChannel.new 4 with
            protocol := some [ProtoEvent.connectionMade] }))) :=
  ⟨(C6_connector_endpoint ⟨Readiness.pending⟩ 4).1 rfl,
   (C6_connector_endpoint ⟨Readiness.fired⟩ 4).2 rfl⟩

/-- C7: an incoming open delivered before a factory is registered is
appended to the FIFO queue (never dropped, no connection made); once
`listen` has run with readiness fired, the factory is recorded and every
queued open is connected in the exact order received, the queue emptying;
an incoming open arriving once a factory is recorded is connected
immediately and not queued. -/
theorem C7_listener_queue (ep : SubchannelListenerEndpoint) (t : SubChannel)
    (a : _SubchannelAddress) :
    (ep.factory = false →
      ep.got_open t a =
        ({ ep with pending_opens := ep.pending_opens ++ [(t, a)] }, [])) ∧
    (ep.factory = true →
      ep.got_open t a = (ep, [listener_connect t])) ∧
    (ep.once.called = false → ep.readiness = Readiness.fired →
      ep.listen = ListenOutcome.listening
        { ep with
            once := { called := true }
            factory := true
            pending_opens := [] }
        (ep.pending_opens.map (fun tp => listener_connect tp.1))) := by
  obtain ⟨⟨b⟩, f, po, r⟩ := ep
  refine ⟨?_, ?_, ?_⟩
  · intro h
    change f = false at h
    subst h
    rfl
  · intro h
    change f = true at h
    subst h
    rfl
  · intro h hr
    change b = false at h
    change r = Readiness.fired at hr
    subst h; subst hr
    rfl

/-- Witness for C7: two opens queued before `listen`, then `listen` with
readiness fired, then a third open against the registered factory. -/
theorem C7_listener_queue_witness :
    (({ once := { called := false }
        factory := false
        pending_opens := [(SubChannel.new 6, ⟨6⟩)]
        readiness := Readiness.fired } : SubchannelListenerEndpoint).got_open
          (SubChannel.new 7) ⟨7⟩ =
      ({ once := { called := false }
         factory := false
         pending_opens := [(SubChannel.new 6, ⟨6⟩), (SubChannel.new 7, ⟨7⟩)]
         readiness := Readiness.fired }, [])) ∧
    (({ once := { called := false }
        factory := false
        pending_opens := [(SubChannel.new 6, ⟨6⟩), (SubChannel.new 7, ⟨7⟩)]
        readiness := Readiness.fired } : SubchannelListenerEndpoint).listen =
      ListenOutcome.listening
        { once := { called := true }
          factory := true
          pending_opens := []
          readiness := Readiness.fired }
        ([(SubChannel.new 6, (⟨6⟩ : _SubchannelAddress)),
          (SubChannel.new 7, ⟨7⟩)].map (fun tp => listener_connect tp.1))) ∧
    (({ once := { called := true }
        factory := true
        pending_opens := []
        readiness := Readiness.fired } : SubchannelListenerEndpoint).got_open
          (SubChannel.new 8) ⟨8⟩ =
      ({ once := { called := true }
         factory := true
         pending_opens := []
         readiness := Readiness.fired }, [listener_connect (SubChannel.new 8)])) := by
  refine ⟨?_, ?_, ?_⟩
  · exact (C7_listener_queue ⟨⟨false⟩, false, [(SubChannel.new 6, ⟨6⟩)],
      Readiness.fired⟩ (SubChannel.new 7) ⟨7⟩).1 rfl
  · exact (C7_listener_queue ⟨⟨false⟩, false,
      [(SubChannel.new 6, ⟨6⟩), (SubChannel.new 7, ⟨7⟩)],
      Readiness.fired⟩ (SubChannel.new 9) ⟨9⟩).2.2 rfl rfl
  · exact (C7_listener_queue ⟨⟨true⟩, true, [], Readiness.fired⟩
      (SubChannel.new 8) ⟨8⟩).2.1 rfl

/-- C8: at most one consumer may ever be bound: `_set_protocol` on a
subchannel that already has a bound protocol trips the `assert not
self._protocol` — an assertion failure, not a recoverable error value
handed back by the state machine. -/
theorem C8_set_protocol_single_bind (sc : SubChannel)
    (evs : List ProtoEvent) (h : sc.protocol = some evs) :
    sc.set_protocol = Except.error SubError.assertionError := by
  obtain ⟨scid, st, pr, pd, pc⟩ := sc
  change pr = some evs at h
  subst h
  rfl

/-- Witness for C8: a subchannel whose consumer was bound by a first
`_set_protocol`. -/
theorem C8_set_protocol_single_bind_witness :
    ({ SubChannel.new 3 with protocol := some [] } : SubChannel).set_protocol =
      Except.error SubError.assertionError :=
  C8_set_protocol_single_bind _ [] rfl

/-- C9 counterexample: the claim says `_SubchannelAddress` construction
fails validation for any negative integer, but the attrs validator is only
`instance_of(six.integer_types)`: the negative integer `-1` passes
validation and construction succeeds. -/
theorem C9_negative_id_accepted :
    mk_SubchannelAddress (PyValue.int (-1)) = Except.ok ⟨-1⟩ := rfl

/-- C9 (amended): constructing a `_SubchannelAddress` succeeds exactly when
the given value is an integer — it fails validation for every non-integer
value and succeeds for every integer id, negative ones included. -/
theorem C9_address_integer_validation :
    (∀ i : Int, mk_SubchannelAddress (PyValue.int i) = Except.ok ⟨i⟩) ∧
    (∀ v : PyValue, (∀ i : Int, v ≠ PyValue.int i) →
      mk_SubchannelAddress v = Except.error ()) := by
  constructor
  · intro i
    rfl
  · intro v hv
    cases v with
    | int i => exact absurd rfl (hv i)
    | str s => rfl
    | bytes b => rfl
    | pyNone => rfl

/-- Witness for C9: the integer id 7 is accepted, the string `"five"` is
rejected. -/
theorem C9_address_integer_validation_witness :
    mk_SubchannelAddress (PyValue.int 7) = Except.ok ⟨7⟩ ∧
    mk_SubchannelAddress (PyValue.str "five") = Except.error () :=
  ⟨C9_address_integer_validation.1 7,
   C9_address_integer_validation.2 (PyValue.str "five")
     (fun _ h => PyValue.noConfusion h)⟩

/-- C10: `writeSequence(iovec)` is `write` of the concatenation of the
buffers of `iovec`, so the `MAX_FRAME_LENGTH` validation applies to the
combined length: a sequence whose total length exceeds the limit fails the
assertion (emitting nothing) even when every individual buffer is within
the limit. -/
theorem C10_writeSequence_concat (sc : SubChannel) (iovec : List Bytes) :
    sc.writeSequence iovec = sc.write iovec.flatten ∧
    (MAX_FRAME_LENGTH < iovec.flatten.length →
      sc.writeSequence iovec = ⟨sc, [], some SubError.assertionError⟩) := by
  refine ⟨rfl, ?_⟩
  intro h
  unfold SubChannel.writeSequence SubChannel.write
  rw [if_neg (by omega)]

/-- Witness for C10: two buffers each within the limit whose combined
length is `MAX_FRAME_LENGTH + 1`. -/
theorem C10_writeSequence_concat_witness :
    (List.replicate MAX_FRAME_LENGTH 0).length ≤ MAX_FRAME_LENGTH ∧
    ([0] : Bytes).length ≤ MAX_FRAME_LENGTH ∧
    (SubChannel.new 5).writeSequence [List.replicate MAX_FRAME_LENGTH 0, [0]] =
      ⟨SubChannel.new 5, [], some SubError.assertionError⟩ := by
  refine ⟨le_of_eq (List.length_replicate _ _), by decide, ?_⟩
  have h : List.flatten [List.replicate MAX_FRAME_LENGTH (0 : Nat), [0]] =
      List.replicate MAX_FRAME_LENGTH (0 : Nat) ++ [0] := by
    rw [List.flatten_cons, List.flatten_cons, List.flatten_nil, List.append_nil]
  refine (C10_writeSequence_concat (SubChannel.new 5)
      [List.replicate MAX_FRAME_LENGTH 0, [0]]).2 ?_
  rw [h, List.length_append, List.length_replicate]
  exact Nat.lt_succ_self _
